import Mathlib

set_option maxHeartbeats 1000000

/-!
Verification of the data-preparation and caching pipeline of
`aitextgen/TokenDataset.py`: the `TokenDataset` constructor with its four
ingestion strategies, the msgpack cache serialization used by `save` /
`from_cache`, the `read_lines_from_file` helper and the random-access
container contract (`__len__` / `__getitem__`).

Bytes are modelled as natural numbers below 256; machine-level token ids are
plain naturals (Python integers are unbounded); the file system is a partial
map from paths to file data; errors raised by the Python code are an explicit
error type returned through `Except`.
-/

namespace Aitextgen

/-! ## msgpack binary format (the fragment used by the cache: unsigned
integers and arrays), as implemented by the `msgpack` library that
`TokenDataset.save` and the `from_cache` branch call. -/

/-- Big-endian encoding of `n` into exactly `k` bytes (most significant
byte first), as msgpack stores uint16/uint32/uint64 payloads. -/
def beBytes : Nat → Nat → List Nat
  | 0, _ => []
  | k + 1, n => n / 256 ^ k :: beBytes k (n % 256 ^ k)

/-- Read `k` big-endian bytes off the front of `bs`, accumulating into
`acc`; fails if fewer than `k` bytes remain. -/
def beReadAux : Nat → Nat → List Nat → Option (Nat × List Nat)
  | 0, acc, bs => some (acc, bs)
  | _ + 1, _, [] => none
  | k + 1, acc, b :: bs => beReadAux k (acc * 256 + b) bs

/-- msgpack encoding of a non-negative integer: positive fixint, uint8,
uint16, uint32 or uint64; integers of 2^64 or more are not encodable
(the library raises an overflow error). -/
def packNat (n : Nat) : Option (List Nat) :=
  if n < 128 then some [n]
  else if n < 256 then some [0xcc, n]
  else if n < 65536 then some (0xcd :: beBytes 2 n)
  else if n < 4294967296 then some (0xce :: beBytes 4 n)
  else if n < 18446744073709551616 then some (0xcf :: beBytes 8 n)
  else none

/-- msgpack array header: fixarray, array16 or array32. -/
def packArrayHeader (n : Nat) : Option (List Nat) :=
  if n < 16 then some [0x90 + n]
  else if n < 65536 then some (0xdc :: beBytes 2 n)
  else if n < 4294967296 then some (0xdd :: beBytes 4 n)
  else none

/-- Encode each element of `xs` with `f` and concatenate the results. -/
def packSeq {α : Type} (f : α → Option (List Nat)) : List α → Option (List Nat)
  | [] => some []
  | x :: xs => do
    let b ← f x
    let rest ← packSeq f xs
    pure (b ++ rest)

/-- msgpack encoding of one row of token ids: array header then elements. -/
def packRow (row : List Nat) : Option (List Nat) := do
  let h ← packArrayHeader row.length
  let body ← packSeq packNat row
  pure (h ++ body)

/-- msgpack encoding of the whole `examples` value (an array of arrays of
non-negative integers), as `msgpack.pack` writes it. -/
def msgpackPack (examples : List (List Nat)) : Option (List Nat) := do
  let h ← packArrayHeader examples.length
  let body ← packSeq packRow examples
  pure (h ++ body)

/-- msgpack decoding of one non-negative integer from the front of `bs`. -/
def decodeNat : List Nat → Option (Nat × List Nat)
  | [] => none
  | b :: bs =>
    if b < 128 then some (b, bs)
    else if b = 0xcc then
      match bs with
      | c :: r => some (c, r)
      | [] => none
    else if b = 0xcd then beReadAux 2 0 bs
    else if b = 0xce then beReadAux 4 0 bs
    else if b = 0xcf then beReadAux 8 0 bs
    else none

/-- msgpack decoding of an array header from the front of `bs`. -/
def decodeArrayHeader : List Nat → Option (Nat × List Nat)
  | [] => none
  | b :: bs =>
    if 0x90 ≤ b ∧ b ≤ 0x9f then some (b - 0x90, bs)
    else if b = 0xdc then beReadAux 2 0 bs
    else if b = 0xdd then beReadAux 4 0 bs
    else none

/-- Decode exactly `k` consecutive values with `f`. -/
def decodeSeq {α : Type} (f : List Nat → Option (α × List Nat)) :
    Nat → List Nat → Option (List α × List Nat)
  | 0, bs => some ([], bs)
  | k + 1, bs => do
    let (x, r) ← f bs
    let (xs, r2) ← decodeSeq f k r
    pure (x :: xs, r2)

/-- msgpack decoding of one row of token ids. -/
def decodeRow (bs : List Nat) : Option (List Nat × List Nat) := do
  let (n, r) ← decodeArrayHeader bs
  decodeSeq decodeNat n r

/-- msgpack decoding of the whole cache blob, as `msgpack.unpack` reads it;
trailing bytes after the single top-level value are an error. -/
def msgpackUnpack (bs : List Nat) : Option (List (List Nat)) := do
  let (n, r) ← decodeArrayHeader bs
  let (rows, r2) ← decodeSeq decodeRow n r
  if r2 = [] then pure rows else none

theorem beReadAux_beBytes (k : Nat) :
    ∀ (n acc : Nat) (rest : List Nat), n < 256 ^ k →
      beReadAux k acc (beBytes k n ++ rest) = some (acc * 256 ^ k + n, rest) := by
  induction k with
  | zero =>
    intro n acc rest h
    have hn : n = 0 := by omega
    subst hn
    simp [beBytes, beReadAux]
  | succ k ih =>
    intro n acc rest h
    have hmod : n % 256 ^ k < 256 ^ k := Nat.mod_lt _ (by positivity)
    simp only [beBytes, List.cons_append, List.append_eq, beReadAux]
    rw [ih (n % 256 ^ k) (acc * 256 + n / 256 ^ k) rest hmod]
    have hdm : 256 ^ k * (n / 256 ^ k) + n % 256 ^ k = n := Nat.div_add_mod n (256 ^ k)
    have : (acc * 256 + n / 256 ^ k) * 256 ^ k + n % 256 ^ k
        = acc * 256 ^ (k + 1) + (256 ^ k * (n / 256 ^ k) + n % 256 ^ k) := by ring
    rw [this, hdm]

theorem decodeNat_packNat {n : Nat} {pb : List Nat} (rest : List Nat)
    (h : packNat n = some pb) :
    decodeNat (pb ++ rest) = some (n, rest) := by
  unfold packNat at h
  split_ifs at h with h1 h2 h3 h4 h5
  · cases h
    simp [decodeNat, h1]
  · cases h
    norm_num [decodeNat]
  · cases h
    norm_num [decodeNat]
    simpa using beReadAux_beBytes 2 n 0 rest (by norm_num; omega)
  · cases h
    norm_num [decodeNat]
    simpa using beReadAux_beBytes 4 n 0 rest (by norm_num; omega)
  · cases h
    norm_num [decodeNat]
    simpa using beReadAux_beBytes 8 n 0 rest (by norm_num; omega)

theorem decodeArrayHeader_packArrayHeader {n : Nat} {pb : List Nat} (rest : List Nat)
    (h : packArrayHeader n = some pb) :
    decodeArrayHeader (pb ++ rest) = some (n, rest) := by
  unfold packArrayHeader at h
  split_ifs at h with h1 h2 h3
  · cases h
    have : (0x90 ≤ 0x90 + n ∧ 0x90 + n ≤ 0x9f) := by omega
    simp [decodeArrayHeader, this]
  · cases h
    norm_num [decodeArrayHeader]
    simpa using beReadAux_beBytes 2 n 0 rest (by norm_num; omega)
  · cases h
    norm_num [decodeArrayHeader]
    simpa using beReadAux_beBytes 4 n 0 rest (by norm_num; omega)

theorem decodeSeq_packSeq {α : Type} (f : α → Option (List Nat))
    (g : List Nat → Option (α × List Nat))
    (hfg : ∀ (x : α) (pb : List Nat) (rest : List Nat),
      f x = some pb → g (pb ++ rest) = some (x, rest)) :
    ∀ (xs : List α) (bs rest : List Nat), packSeq f xs = some bs →
      decodeSeq g xs.length (bs ++ rest) = some (xs, rest) := by
  intro xs
  induction xs with
  | nil =>
    intro bs rest h
    simp only [packSeq] at h
    cases h
    simp [decodeSeq]
  | cons x xs ih =>
    intro bs rest h
    simp only [packSeq, Option.bind_eq_bind, Option.bind_eq_some] at h
    obtain ⟨b, hb, r, hr, hbs⟩ := h
    cases hbs
    simp only [List.length_cons, decodeSeq, Option.bind_eq_bind, List.append_assoc]
    rw [hfg x b (r ++ rest) hb]
    simp only [Option.some_bind]
    rw [ih r rest hr]
    rfl

theorem decodeRow_packRow {row : List Nat} {pb : List Nat} (rest : List Nat)
    (h : packRow row = some pb) :
    decodeRow (pb ++ rest) = some (row, rest) := by
  simp only [packRow, Option.bind_eq_bind, Option.bind_eq_some] at h
  obtain ⟨hd, hhd, body, hbody, hpb⟩ := h
  cases hpb
  simp only [decodeRow, Option.bind_eq_bind, List.append_assoc]
  rw [decodeArrayHeader_packArrayHeader (body ++ rest) hhd]
  simp only [Option.some_bind]
  exact decodeSeq_packSeq packNat decodeNat (fun x pb r hx => decodeNat_packNat r hx)
    row body rest hbody

/-- Round trip at the msgpack level: whenever `msgpack.pack` succeeds on an
examples value, `msgpack.unpack` on the produced bytes returns that exact
value. -/
theorem msgpackUnpack_msgpackPack {examples : List (List Nat)} {bs : List Nat}
    (h : msgpackPack examples = some bs) :
    msgpackUnpack bs = some examples := by
  simp only [msgpackPack, Option.bind_eq_bind, Option.bind_eq_some] at h
  obtain ⟨hd, hhd, body, hbody, hbs⟩ := h
  cases hbs
  simp only [msgpackUnpack, Option.bind_eq_bind]
  have h1 : decodeArrayHeader (hd ++ body) = some (examples.length, body) := by
    have := decodeArrayHeader_packArrayHeader body hhd
    exact this
  rw [h1]
  simp only [Option.some_bind]
  have h2 : decodeSeq decodeRow examples.length (body ++ []) = some (examples, []) :=
    decodeSeq_packSeq packRow decodeRow (fun x pb r hx => decodeRow_packRow r hx)
      examples body [] hbody
  rw [List.append_nil] at h2
  rw [h2]
  rfl

/-! ## The tokenizer capability, configuration surface, file system model
and error taxonomy. -/

/-- The external tokenizer capability exactly as `TokenDataset.__init__`
consumes it: `batch_encode_plus` (always called with
`add_special_tokens=True`, so only the texts and `max_length` vary),
`tokenize`, `convert_tokens_to_ids`, `build_inputs_with_special_tokens`,
and the two scalar length attributes. -/
structure Tokenizer where
  batch_encode_plus : List String → Nat → List (List Nat)
  tokenize : String → List String
  convert_tokens_to_ids : List String → List Nat
  build_inputs_with_special_tokens : List Nat → List Nat
  max_len : Nat
  max_len_single_sentence : Nat

/-- Contents of a file in the modelled file system: either raw bytes (for
the msgpack cache) or text, stored as its newline-split lines. -/
inductive FileData where
  | binary (bs : List Nat)
  | text (lines : List String)
deriving DecidableEq

/-- The keyword arguments of `TokenDataset.__init__`; `none` models a
Python `None` default. -/
structure Config where
  tokenizer : Option Tokenizer
  texts : Option (List String)
  line_by_line : Bool
  file_path : Option String
  from_cache : Bool
  header : Bool
  save_cache : Bool
  cache_destination : Option String
  block_size : Nat

/-- The Python exceptions the modelled code can raise. -/
inductive DSError where
  | assertionError (msg : String)
  | typeError (msg : String)
  | fileNotFoundError (path : String)
  | unpackError
  | unicodeDecodeError
  | valueError (msg : String)
  | attributeError (msg : String)
  | overflowError
  | indexError
deriving DecidableEq

/-- Python truthiness of the `texts` argument inside
`any([texts, file_path])`: `None` and the empty list are falsy. -/
def truthyTexts : Option (List String) → Bool
  | none => false
  | some l => !l.isEmpty

/-- Python truthiness of the `file_path` argument inside
`any([texts, file_path])`: `None` and the empty string are falsy. -/
def truthyPath : Option String → Bool
  | none => false
  | some s => !s.isEmpty

/-! ## Python helpers: `range`, list slicing, list indexing, `str.isspace`. -/

/-- Number of elements of Python `range(start, stop, step)` for a nonzero
step. -/
def pyRangeLen (start stop step : Int) : Nat :=
  if 0 < step then
    if stop ≤ start then 0 else ((stop - start - 1) / step + 1).toNat
  else
    if start ≤ stop then 0 else ((start - stop - 1) / (-step) + 1).toNat

/-- Python `range(start, stop, step)` as a list; a zero step raises
`ValueError`, modelled as `none`. -/
def pyRange (start stop step : Int) : Option (List Int) :=
  if step = 0 then none
  else some ((List.range (pyRangeLen start stop step)).map (fun (k : Nat) => start + (k : Int) * step))

/-- Python slice `xs[a:b]` for a non-negative start `a` and `b ≥ a`
(the only shape the chunking loop uses: `tokenized_text[i : i + block_size]`
with `i ≥ 0`). -/
def pySliceNonneg {α : Type} (xs : List α) (a b : Int) : List α :=
  (xs.drop a.toNat).take (b - a).toNat

/-- Python list indexing `xs[i]`: negative indices count from the end;
`none` models `IndexError`. -/
def pyIndex {α : Type} (xs : List α) (i : Int) : Option α :=
  let j : Int := if i < 0 then i + (xs.length : Int) else i
  if 0 ≤ j then xs.get? j.toNat else none

/-- Python `str.endswith`: the second string is a suffix of the first
(character-wise). -/
def strEndsWith (s post : String) : Bool :=
  post.data.isSuffixOf s.data

/-- Python `str.isspace`: true iff the string is non-empty and all of its
characters are whitespace. -/
def pyIsSpace (s : String) : Bool :=
  !s.isEmpty && s.all (fun c => c.isWhitespace)

/-- Python `str` of a list of field strings, as `str(line)` renders a csv
record: bracketed, comma-separated, each field quoted. -/
def pyStrOfRecord (fields : List String) : String :=
  "[" ++ String.intercalate ", " (fields.map (fun f => "'" ++ f ++ "'")) ++ "]"

/-- One record of `csv.reader` for a quote-free line: the comma-separated
fields (standard-library csv parsing, modelled for unquoted input). -/
def csvSplitRecord (line : String) : List String :=
  line.splitOn ","

/-! ## The line-reading helper `read_lines_from_file`. -/

/-- `read_lines_from_file(file_path, header)` from TokenDataset.py, over a
file whose newline-split lines are `fileLines`: optionally drop the first
line (`f.readline()`), then either stringify csv records (paths ending in
".csv") or keep the non-empty, non-whitespace-only lines. -/
def read_lines_from_file (file_path : String) (fileLines : List String)
    (header : Bool) : List String :=
  let rest := if header then fileLines.drop 1 else fileLines
  if strEndsWith file_path ".csv" then
    rest.map (fun line => pyStrOfRecord (csvSplitRecord line))
  else
    rest.filter (fun line => !line.isEmpty && !pyIsSpace line)

/-! ## TokenDataset: chunking, ingestion strategies, constructor, save,
length and item access. -/

/-- The state a successful `TokenDataset.__init__` leaves behind:
the `examples` list and the provenance suffix used by `__repr__`. -/
structure TokenDataset where
  examples : List (List Nat)
  str_suffix : String
deriving DecidableEq

/-- `len(dataset)` (`__len__`). -/
def TokenDataset.length (ds : TokenDataset) : Nat :=
  ds.examples.length

/-- The chunk loop of the fallback ingestion branch, before special-token
wrapping: `tokenized_text[i : i + block_size]` for
`i in range(0, len(tokenized_text) - block_size + 1, block_size)`, where
`B` is the already-adjusted (effective) block size. -/
def rawChunks (ts : List Nat) (B : Int) : Option (List (List Nat)) :=
  (pyRange 0 ((ts.length : Int) - B + 1) B).map
    (fun idxs => idxs.map (fun i => pySliceNonneg ts i (i + B)))

/-- Which of the four mutually exclusive ingestion branches the
constructor's if/elif chain selects. -/
inductive Strategy where
  | cache
  | texts
  | lineByLine
  | chunked
deriving DecidableEq

/-- The constructor's branch selection, in source order:
`if from_cache / elif texts is not None / elif line_by_line / else`. -/
def selectStrategy (cfg : Config) : Strategy :=
  if cfg.from_cache then .cache
  else if cfg.texts.isSome then .texts
  else if cfg.line_by_line then .lineByLine
  else .chunked

/-- Ingestion branch 1: `from_cache` — open `file_path` in binary mode and
msgpack-unpack it; the tokenizer is not consulted. -/
def ingestCache (fs : String → Option FileData) (cfg : Config) :
    Except DSError TokenDataset :=
  match cfg.file_path with
  | none => .error (.typeError "expected str, bytes or os.PathLike object, not NoneType")
  | some p =>
    match fs p with
    | none => .error (.fileNotFoundError p)
    | some (.text _) => .error .unpackError
    | some (.binary bs) =>
      match msgpackUnpack bs with
      | none => .error .unpackError
      | some ex => .ok { examples := ex, str_suffix := "via cache." }

/-- Ingestion branch 2: direct `texts` —
`tokenizer.batch_encode_plus(texts, add_special_tokens=True, max_length=block_size)`. -/
def ingestTexts (cfg : Config) : Except DSError TokenDataset :=
  match cfg.tokenizer with
  | none => .error (.attributeError "NoneType object has no batch_encode_plus")
  | some tok =>
    match cfg.texts with
    | none => .error (.typeError "texts is None")
    | some ts =>
      .ok { examples := tok.batch_encode_plus ts cfg.block_size
            str_suffix := "via application." }

/-- Ingestion branch 3: `line_by_line` file — read texts with
`read_lines_from_file`, then batch-encode them as in branch 2. -/
def ingestLineByLine (fs : String → Option FileData) (cfg : Config) :
    Except DSError TokenDataset :=
  match cfg.file_path with
  | none => .error (.typeError "os.path.isfile received None")
  | some p =>
    match fs p with
    | none => .error (.assertionError "")
    | some (.binary _) => .error .unicodeDecodeError
    | some (.text lines) =>
      match cfg.tokenizer with
      | none => .error (.attributeError "NoneType object has no batch_encode_plus")
      | some tok =>
        .ok { examples := tok.batch_encode_plus
                (read_lines_from_file p lines cfg.header) cfg.block_size
              str_suffix := "from line-by-line file at " ++ p ++ "." }

/-- Ingestion branch 4 (fallback): chunked raw-text file — adjust the block
size by the tokenizer's special-token overhead, read and tokenize the whole
file, cut non-overlapping chunks, and wrap each with
`build_inputs_with_special_tokens`. -/
def ingestChunked (fs : String → Option FileData) (cfg : Config) :
    Except DSError TokenDataset :=
  match cfg.file_path with
  | none => .error (.typeError "os.path.isfile received None")
  | some p =>
    match fs p with
    | none => .error (.assertionError "")
    | some (.binary _) => .error .unicodeDecodeError
    | some (.text lines) =>
      match cfg.tokenizer with
      | none => .error (.attributeError "NoneType object has no max_len")
      | some tok =>
        let B : Int := (cfg.block_size : Int)
          - ((tok.max_len : Int) - (tok.max_len_single_sentence : Int))
        let text := String.intercalate "\n" lines
        let tokenized_text := tok.convert_tokens_to_ids (tok.tokenize text)
        match rawChunks tokenized_text B with
        | none => .error (.valueError "range() arg 3 must not be zero")
        | some chunks =>
          .ok { examples := chunks.map tok.build_inputs_with_special_tokens
                str_suffix := "from file at " ++ p ++ "." }

/-- `TokenDataset.save(cache_destination)`: assert non-empty examples, then
open the destination for writing and msgpack-pack the examples. The write
is the returned pair (destination path, bytes); on any error no file is
opened, created or modified. A `none` destination models Python `None`
reaching `open`, a `TypeError`. -/
def save (examples : List (List Nat)) (cache_destination : Option String) :
    Except DSError (String × List Nat) :=
  if examples.length > 0 then
    match cache_destination with
    | none => .error (.typeError "expected str, bytes or os.PathLike object, not NoneType")
    | some d =>
      match msgpackPack examples with
      | none => .error .overflowError
      | some bs => .ok (d, bs)
  else .error (.assertionError "No data loaded to save.")

/-- The body of the constructor's four-way if/elif ingestion chain: run the
selected strategy. -/
def ingest (fs : String → Option FileData) (cfg : Config) :
    Except DSError TokenDataset :=
  match selectStrategy cfg with
  | .cache => ingestCache fs cfg
  | .texts => ingestTexts cfg
  | .lineByLine => ingestLineByLine fs cfg
  | .chunked => ingestChunked fs cfg

/-- `TokenDataset.__init__` over the modelled file system `fs`: the two
precondition asserts, the four-way if/elif ingestion chain, and the
optional `self.save(cache_destination)` call. The result carries the
constructed dataset together with the cache write performed (if any). -/
def TokenDataset.init (fs : String → Option FileData) (cfg : Config) :
    Except DSError (TokenDataset × Option (String × List Nat)) :=
  if !(truthyTexts cfg.texts || truthyPath cfg.file_path) then
    .error (.assertionError "texts or file_path must be specified.")
  else if !cfg.from_cache && cfg.tokenizer.isNone then
    .error (.assertionError "A tokenizer must be specified.")
  else
    match ingest fs cfg with
    | .error e => .error e
    | .ok ds =>
      if cfg.save_cache then
        match save ds.examples cfg.cache_destination with
        | .error e => .error e
        | .ok w => .ok (ds, some w)
      else .ok (ds, none)

/-- `torch.tensor(row, dtype=torch.long)`: the token ids as 64-bit signed
integers; values outside the int64 range raise. -/
def torchTensorLong (row : List Nat) : Except DSError (List Int) :=
  if row.all (fun n => n < 2 ^ 63) then .ok (row.map (fun (n : Nat) => (n : Int)))
  else .error .overflowError

/-- `TokenDataset.__getitem__(item)`:
`torch.tensor(self.examples[item], dtype=torch.long)` with Python list
indexing semantics. -/
def TokenDataset.getItem (ds : TokenDataset) (i : Int) : Except DSError (List Int) :=
  match pyIndex ds.examples i with
  | none => .error .indexError
  | some row => torchTensorLong row

/-! ## Chunking correctness. -/

theorem rawChunks_eq (ts : List Nat) (B : Int) (hB : 0 < B) :
    rawChunks ts B =
      some ((List.range (ts.length / B.toNat)).map
        (fun k => (ts.drop (k * B.toNat)).take B.toNat)) := by
  obtain ⟨b, rfl⟩ : ∃ b : Nat, B = (b : Int) :=
    ⟨B.toNat, (Int.toNat_of_nonneg hB.le).symm⟩
  have hb : 0 < b := by exact_mod_cast hB
  have hbne : ((b : Nat) : Int) ≠ 0 := by exact_mod_cast hb.ne'
  set L := ts.length with hL
  simp only [Int.toNat_ofNat]
  unfold rawChunks pyRange pyRangeLen
  rw [if_neg hbne, if_pos (by exact_mod_cast hb)]
  have hlen : (if ((L : Int) - b + 1) ≤ 0 then 0
      else (((L : Int) - (b : Int) + 1 - 0 - 1) / (b : Int) + 1).toNat) = L / b := by
    split
    · next hsmall =>
      have : L < b := by omega
      exact (Nat.div_eq_of_lt this).symm
    · next hbig =>
      have hble : b ≤ L := by omega
      have hnum : ((L : Int) - (b : Int) + 1 - 0 - 1) = ((L - b : Nat) : Int) := by omega
      rw [hnum, ← Int.ofNat_ediv, Nat.div_eq_sub_div hb hble]
      have hfin : ((((L - b) / b : Nat) : Int) + 1) = (((L - b) / b + 1 : Nat) : Int) := by
        push_cast
        ring
      rw [hfin, Int.toNat_ofNat]
  rw [hlen]
  have hmap : ∀ k : Nat,
      pySliceNonneg ts ((0 : Int) + (k : Int) * (b : Int))
        ((0 : Int) + (k : Int) * (b : Int) + (b : Int)) =
      (ts.drop (k * b)).take b := by
    intro k
    unfold pySliceNonneg
    have h1 : ((0 : Int) + (k : Int) * (b : Int)) = ((k * b : Nat) : Int) := by push_cast; ring
    rw [h1]
    have h2 : (((k * b : Nat) : Int) + (b : Int)) - ((k * b : Nat) : Int) = ((b : Nat) : Int) := by
      ring
    rw [h2, Int.toNat_ofNat, Int.toNat_ofNat]
  rw [Option.map_some']
  rw [List.map_map]
  apply congrArg
  apply List.map_congr_left
  intro k _
  simp only [Function.comp]
  exact hmap k

/-- Every emitted chunk has raw length exactly the effective block size. -/
theorem rawChunks_lengths (ts : List Nat) (B : Int) (hB : 0 < B)
    (c : List Nat) (hc : ∀ cs, rawChunks ts B = some cs → c ∈ cs) :
    c.length = B.toNat := by
  have h := rawChunks_eq ts B hB
  have hmem := hc _ h
  simp only [List.mem_map, List.mem_range] at hmem
  obtain ⟨k, hk, rfl⟩ := hmem
  have hkb : k * B.toNat + B.toNat ≤ ts.length := by
    have h1 : k + 1 ≤ ts.length / B.toNat := hk
    have h2 : (k + 1) * B.toNat ≤ (ts.length / B.toNat) * B.toNat :=
      Nat.mul_le_mul_right _ h1
    have h3 : (ts.length / B.toNat) * B.toNat ≤ ts.length := Nat.div_mul_le_self _ _
    have h4 : (k + 1) * B.toNat = k * B.toNat + B.toNat := by ring
    omega
  simp only [List.length_take, List.length_drop]
  omega

/-- Claim C1: for the chunked raw-text ingestion strategy (no cache, no
texts, no line_by_line), with effective block size
B = block_size - (tokenizer.max_len - tokenizer.max_len_single_sentence)
positive and flat tokenized sequence ts of length L, the constructor
produces exactly L / B examples, the k-th being the special-token wrapping
of the consecutive non-overlapping slice of raw length exactly B starting
at offset k * B; the trailing remainder shorter than B is discarded. -/
theorem chunked_ingestion_floor_div
    (fs : String → Option FileData) (cfg : Config) (tok : Tokenizer)
    (p : String) (lines : List String)
    (htok : cfg.tokenizer = some tok) (htexts : cfg.texts = none)
    (hlbl : cfg.line_by_line = false) (hfc : cfg.from_cache = false)
    (hfp : cfg.file_path = some p) (hp : p.isEmpty = false)
    (hfs : fs p = some (.text lines)) (hsc : cfg.save_cache = false)
    (hB : 0 < (cfg.block_size : Int)
      - ((tok.max_len : Int) - (tok.max_len_single_sentence : Int))) :
    TokenDataset.init fs cfg = .ok
      ({ examples :=
           (List.range
               ((tok.convert_tokens_to_ids
                   (tok.tokenize (String.intercalate "\n" lines))).length
                 / ((cfg.block_size : Int)
                   - ((tok.max_len : Int) - (tok.max_len_single_sentence : Int))).toNat)).map
             (fun k => tok.build_inputs_with_special_tokens
               (((tok.convert_tokens_to_ids
                     (tok.tokenize (String.intercalate "\n" lines))).drop
                   (k * ((cfg.block_size : Int)
                     - ((tok.max_len : Int) - (tok.max_len_single_sentence : Int))).toNat)).take
                 ((cfg.block_size : Int)
                   - ((tok.max_len : Int) - (tok.max_len_single_sentence : Int))).toNat))
         str_suffix := "from file at " ++ p ++ "." }, none) := by
  have hts : truthyTexts cfg.texts = false := by rw [htexts]; rfl
  have hps : truthyPath cfg.file_path = true := by
    rw [hfp]
    simp [truthyPath, hp]
  have hsel : selectStrategy cfg = .chunked := by
    unfold selectStrategy
    rw [hfc, htexts, hlbl]
    rfl
  unfold TokenDataset.init ingest
  rw [hts, hps, hfc, htok]
  simp only [Bool.false_or, Bool.not_true, Bool.false_eq_true, if_false, Bool.not_false,
    Option.isNone_some, Bool.and_false, Bool.true_and, hsel]
  unfold ingestChunked
  simp only [hfp, hfs, htok]
  rw [rawChunks_eq _ _ hB]
  simp only [hsc, Bool.false_eq_true, if_false, List.map_map, Function.comp]
  rfl

/-- Helper: a construction with `from_cache` set, over a file holding
msgpack bytes that decode to `ex`, succeeds with exactly `ex` as examples
and the "via cache." provenance. -/
theorem init_from_cache_ok
    (fs : String → Option FileData) (cfg : Config) (p : String)
    (bs : List Nat) (ex : List (List Nat))
    (hfc : cfg.from_cache = true) (hfp : cfg.file_path = some p)
    (hp : p.isEmpty = false) (hfs : fs p = some (.binary bs))
    (hun : msgpackUnpack bs = some ex) (hsc : cfg.save_cache = false) :
    TokenDataset.init fs cfg =
      .ok ({ examples := ex, str_suffix := "via cache." }, none) := by
  have hps : truthyPath cfg.file_path = true := by
    rw [hfp]
    simp [truthyPath, hp]
  have hsel : selectStrategy cfg = .cache := by
    unfold selectStrategy
    rw [hfc]
    rfl
  unfold TokenDataset.init ingest
  rw [hps, hfc]
  simp only [Bool.or_true, Bool.not_true, Bool.false_eq_true, if_false, Bool.false_and, hsel]
  unfold ingestCache
  simp only [hfp, hfs, hun, hsc, Bool.false_eq_true, if_false]

/-- A concrete tokenizer for the chunking witness: the file tokenizes to
five ids 0..4, special-token wrapping prepends 9, no reserved overhead. -/
def tokC1 : Tokenizer :=
  { batch_encode_plus := fun _ _ => []
    tokenize := fun _ => ["t1", "t2", "t3", "t4", "t5"]
    convert_tokens_to_ids := fun l => List.range l.length
    build_inputs_with_special_tokens := fun x => 9 :: x
    max_len := 10
    max_len_single_sentence := 10 }

/-- A file system holding one text file "f". -/
def fsC1 : String → Option FileData :=
  fun s => if s = "f" then some (.text ["x"]) else none

/-- A chunked-ingestion configuration over `fsC1` with block size 2. -/
def cfgC1 : Config :=
  { tokenizer := some tokC1, texts := none, line_by_line := false
    file_path := some "f", from_cache := false, header := true
    save_cache := false, cache_destination := none, block_size := 2 }

/-- Witness for claim C1: five tokens with effective block size 2 give
exactly two examples of raw length 2; the trailing token is dropped. -/
theorem chunked_ingestion_floor_div_witness :
    (0 : Int) < (cfgC1.block_size : Int)
      - ((tokC1.max_len : Int) - (tokC1.max_len_single_sentence : Int)) ∧
    TokenDataset.init fsC1 cfgC1 =
      .ok ({ examples := [[9, 0, 1], [9, 2, 3]], str_suffix := "from file at f." }, none) := by
  constructor
  · decide
  · have h := chunked_ingestion_floor_div fsC1 cfgC1 tokC1 "f" ["x"]
      rfl rfl rfl rfl rfl rfl rfl rfl (by decide)
    rw [h]
    rfl

/-- Claim C2: for every non-empty examples sequence (here: every one the
msgpack format can encode, i.e. entries below 2^64 and array lengths below
2^32 — `msgpack.pack` raises on anything larger, producing no file at all),
`save` to a destination path followed by a `from_cache=True` construction
on that same path yields an equal examples sequence: same length, same
nested integers, same order. -/
theorem save_load_round_trip
    (examples : List (List Nat)) (p : String) (bs : List Nat)
    (fs : String → Option FileData) (cfg : Config)
    (hne : examples ≠ [])
    (hbs : msgpackPack examples = some bs)
    (hfs : fs p = some (.binary bs))
    (hfc : cfg.from_cache = true) (hfp : cfg.file_path = some p)
    (hp : p.isEmpty = false) (hsc : cfg.save_cache = false) :
    save examples (some p) = .ok (p, bs) ∧
    TokenDataset.init fs cfg =
      .ok ({ examples := examples, str_suffix := "via cache." }, none) := by
  have hlen : examples.length > 0 := List.length_pos.mpr hne
  constructor
  · unfold save
    rw [if_pos hlen]
    simp only [hbs]
  · exact init_from_cache_ok fs cfg p bs examples hfc hfp hp hfs
      (msgpackUnpack_msgpackPack hbs) hsc

/-- A file system holding the cache file "c" with the msgpack encoding of
the examples value used by the round-trip witness. -/
def fsC2 : String → Option FileData :=
  fun s => if s = "c" then some (.binary [146, 146, 1, 2, 145, 3]) else none

/-- A `from_cache` configuration reading the cache file "c". -/
def cfgC2 : Config :=
  { tokenizer := none, texts := none, line_by_line := false
    file_path := some "c", from_cache := true, header := true
    save_cache := false, cache_destination := none, block_size := 1024 }

/-- Witness for claim C2: saving the examples value with two rows and then
loading it from cache reproduces it exactly. -/
theorem save_load_round_trip_witness :
    ([[1, 2], [3]] : List (List Nat)) ≠ [] ∧
    msgpackPack [[1, 2], [3]] = some [146, 146, 1, 2, 145, 3] ∧
    save [[1, 2], [3]] (some "c") = .ok ("c", [146, 146, 1, 2, 145, 3]) ∧
    TokenDataset.init fsC2 cfgC2 =
      .ok ({ examples := [[1, 2], [3]], str_suffix := "via cache." }, none) := by
  have h := save_load_round_trip [[1, 2], [3]] "c" [146, 146, 1, 2, 145, 3] fsC2 cfgC2
    (by decide) (by decide) (by decide) rfl rfl rfl rfl
  exact ⟨by decide, by decide, h.1, h.2⟩

/-- Claim C3: ingestion strategies are mutually exclusive and selected
deterministically in the priority order cache, then direct texts, then
line-by-line file, then chunked file (the constructor's if/elif chain); in
particular, when both `from_cache` and `texts` are supplied the cache
strategy is selected and the constructor's result does not depend on the
tokenizer at all (it is never invoked). -/
theorem ingestion_priority
    (fs : String → Option FileData) (cfg : Config) (ts : List String)
    (hfc : cfg.from_cache = true) (_hts : cfg.texts = some ts) :
    selectStrategy cfg = .cache
    ∧ (∀ t1 t2 : Option Tokenizer,
        TokenDataset.init fs { cfg with tokenizer := t1 } =
        TokenDataset.init fs { cfg with tokenizer := t2 })
    ∧ (∀ cfg2 : Config,
        (selectStrategy cfg2 = .cache ↔ cfg2.from_cache = true)
        ∧ (selectStrategy cfg2 = .texts ↔
            cfg2.from_cache = false ∧ cfg2.texts.isSome = true)
        ∧ (selectStrategy cfg2 = .lineByLine ↔
            cfg2.from_cache = false ∧ cfg2.texts.isSome = false ∧ cfg2.line_by_line = true)
        ∧ (selectStrategy cfg2 = .chunked ↔
            cfg2.from_cache = false ∧ cfg2.texts.isSome = false ∧ cfg2.line_by_line = false)) := by
  refine ⟨?_, ?_, ?_⟩
  · unfold selectStrategy
    rw [hfc]
    rfl
  · intro t1 t2
    unfold TokenDataset.init ingest selectStrategy ingestCache
    simp only [hfc, Bool.not_true, Bool.false_and, Bool.false_eq_true, if_false, if_true]
  · intro cfg2
    unfold selectStrategy
    cases hc : cfg2.from_cache <;> cases hx : cfg2.texts <;>
      cases hl : cfg2.line_by_line <;> simp

/-- The cache file and configuration for the priority witness: both
`from_cache` and `texts` supplied. -/
def fsC3 : String → Option FileData :=
  fun s => if s = "c" then some (.binary [145, 145, 7]) else none

/-- Configuration supplying both a cache file and direct texts. -/
def cfgC3 : Config :=
  { tokenizer := none, texts := some ["a"], line_by_line := false
    file_path := some "c", from_cache := true, header := true
    save_cache := false, cache_destination := none, block_size := 1024 }

/-- Witness for claim C3 at a concrete configuration supplying both a cache
and texts. -/
theorem ingestion_priority_witness :
    selectStrategy cfgC3 = .cache
    ∧ (∀ t1 t2 : Option Tokenizer,
        TokenDataset.init fsC3 { cfgC3 with tokenizer := t1 } =
        TokenDataset.init fsC3 { cfgC3 with tokenizer := t2 })
    ∧ (∀ cfg2 : Config,
        (selectStrategy cfg2 = .cache ↔ cfg2.from_cache = true)
        ∧ (selectStrategy cfg2 = .texts ↔
            cfg2.from_cache = false ∧ cfg2.texts.isSome = true)
        ∧ (selectStrategy cfg2 = .lineByLine ↔
            cfg2.from_cache = false ∧ cfg2.texts.isSome = false ∧ cfg2.line_by_line = true)
        ∧ (selectStrategy cfg2 = .chunked ↔
            cfg2.from_cache = false ∧ cfg2.texts.isSome = false ∧ cfg2.line_by_line = false)) :=
  ingestion_priority fsC3 cfgC3 ["a"] rfl rfl

/-- A tokenizer under which the chunked counterexample file yields a single
token, fewer than the effective block size. -/
def tokC4 : Tokenizer :=
  { batch_encode_plus := fun _ _ => []
    tokenize := fun _ => ["t"]
    convert_tokens_to_ids := fun l => List.range l.length
    build_inputs_with_special_tokens := fun x => x
    max_len := 0
    max_len_single_sentence := 0 }

/-- A file system holding one short text file "f". -/
def fsC4 : String → Option FileData :=
  fun s => if s = "f" then some (.text ["x"]) else none

/-- A chunked-ingestion configuration whose file tokenizes to fewer tokens
than the effective block size. -/
def cfgC4 : Config :=
  { tokenizer := some tokC4, texts := none, line_by_line := false
    file_path := some "f", from_cache := false, header := true
    save_cache := false, cache_destination := none, block_size := 2 }

/-- Counterexample to claim C4 as stated: this non-cache construction
produces zero examples yet succeeds, yielding a usable instance instead of
failing (the file holds 1 token, the effective block size is 2, so the
chunk loop emits nothing and no emptiness check exists). -/
theorem construction_succeeds_with_zero_examples :
    TokenDataset.init fsC4 cfgC4 =
      .ok ({ examples := [], str_suffix := "from file at f." }, none)
    ∧ cfgC4.from_cache = false :=
  ⟨rfl, rfl⟩

/-- Claim C4 as amended: successful construction does not in general
guarantee non-empty examples (the chunked strategy succeeds with zero
examples when the file has fewer tokens than the effective block size, and
an empty cache loads); but when `save_cache` is requested, a successful
construction does imply a non-empty examples sequence, because the save
step rejects empty data. -/
theorem save_cache_success_nonempty
    (fs : String → Option FileData) (cfg : Config) (ds : TokenDataset)
    (w : Option (String × List Nat))
    (hsc : cfg.save_cache = true)
    (h : TokenDataset.init fs cfg = .ok (ds, w)) :
    ds.examples ≠ [] := by
  unfold TokenDataset.init at h
  rw [hsc] at h
  split_ifs at h with hc1 hc2 hc3
  · cases hing : ingest fs cfg with
    | error e =>
      rw [hing] at h
      exact absurd h (by simp)
    | ok ds2 =>
      rw [hing] at h
      dsimp only at h
      cases hsave : save ds2.examples cfg.cache_destination with
      | error e =>
        rw [hsave] at h
        exact absurd h (by simp)
      | ok w2 =>
        rw [hsave] at h
        simp only [Except.ok.injEq, Prod.mk.injEq] at h
        obtain ⟨hds, -⟩ := h
        subst hds
        intro hnil
        rw [hnil] at hsave
        simp [save] at hsave
  · exact absurd rfl hc3

/-- Tokenizer for the amended-claim witness: one text, one example. -/
def tokC4w : Tokenizer :=
  { batch_encode_plus := fun _ _ => [[1]]
    tokenize := fun _ => []
    convert_tokens_to_ids := fun _ => []
    build_inputs_with_special_tokens := fun x => x
    max_len := 0
    max_len_single_sentence := 0 }

/-- Configuration for the amended-claim witness: direct texts with
`save_cache` requested and an explicit destination. -/
def cfgC4w : Config :=
  { tokenizer := some tokC4w, texts := some ["a"], line_by_line := false
    file_path := none, from_cache := false, header := true
    save_cache := true, cache_destination := some "c", block_size := 1024 }

/-- Witness for the amended claim C4: a successful `save_cache`
construction, whose examples are indeed non-empty. -/
theorem save_cache_success_nonempty_witness :
    cfgC4w.save_cache = true ∧
    TokenDataset.init (fun _ => none) cfgC4w =
      .ok ({ examples := [[1]], str_suffix := "via application." },
        some ("c", [145, 145, 1])) ∧
    ({ examples := [[1]], str_suffix := "via application." } : TokenDataset).examples ≠ [] := by
  refine ⟨rfl, rfl, ?_⟩
  exact save_cache_success_nonempty (fun _ => none) cfgC4w
    { examples := [[1]], str_suffix := "via application." }
    (some ("c", [145, 145, 1])) rfl rfl

/-- Claim C5: calling `save` on a corpus with zero examples fails with the
precondition error ("No data loaded to save.") and performs no write at
all — in this model every write a successful `save` performs is its
returned (path, bytes) pair, and an error result carries none, so the
destination is not opened, created or modified. -/
theorem save_empty_rejected (examples : List (List Nat)) (dest : Option String)
    (h : examples.length = 0) :
    save examples dest = .error (.assertionError "No data loaded to save.") := by
  unfold save
  rw [if_neg (by omega)]

/-- Witness for claim C5: saving an empty examples list fails. -/
theorem save_empty_rejected_witness :
    (([] : List (List Nat)).length = 0) ∧
    save [] (some "model_cache.msgpack") =
      .error (.assertionError "No data loaded to save.") :=
  ⟨rfl, save_empty_rejected [] (some "model_cache.msgpack") rfl⟩

/-- Claim C6: with header=true the helper discards exactly the first line
before any further processing — for any path (CSV or not) the result on
`l :: ls` with a header equals the result on `ls` without one, the result
does not depend on the first line's content, and in general a header call
equals a headerless call on the tail. -/
theorem header_skip_drops_first_line (path : String) (l : String) (ls : List String) :
    read_lines_from_file path (l :: ls) true = read_lines_from_file path ls false
    ∧ (∀ l2 : String, read_lines_from_file path (l2 :: ls) true
        = read_lines_from_file path (l :: ls) true)
    ∧ read_lines_from_file path ls true = read_lines_from_file path (ls.drop 1) false :=
  ⟨rfl, fun _ => rfl, rfl⟩

/-- Claim C7: for a non-CSV path the helper returns exactly the lines that
are non-empty and not whitespace-only, in their original order (a sublist
of the post-header lines), every returned line being non-blank, and every
non-blank line kept with its exact multiplicity. -/
theorem blank_line_filtering (path : String) (ls : List String) (header : Bool)
    (hcsv : strEndsWith path ".csv" = false) :
    List.Sublist (read_lines_from_file path ls header)
        (if header then ls.drop 1 else ls)
    ∧ (∀ l ∈ read_lines_from_file path ls header,
        l.isEmpty = false ∧ pyIsSpace l = false)
    ∧ (∀ l : String, l.isEmpty = false → pyIsSpace l = false →
        (read_lines_from_file path ls header).count l
          = (if header then ls.drop 1 else ls).count l) := by
  unfold read_lines_from_file
  rw [if_neg (by simp [hcsv])]
  refine ⟨List.filter_sublist _, ?_, ?_⟩
  · intro l hl
    rw [List.mem_filter] at hl
    have h2 := hl.2
    simp only [Bool.and_eq_true, Bool.not_eq_true'] at h2
    exact h2
  · intro l h1 h2
    rw [List.count_filter]
    simp [h1, h2]

/-- Witness for claim C7 on a file whose lines include an empty line and a
whitespace-only line. -/
theorem blank_line_filtering_witness :
    (strEndsWith "t.txt" ".csv" = false) ∧
    (List.Sublist (read_lines_from_file "t.txt" ["h", "a", "", "  ", "b"] true)
        (if true then (["h", "a", "", "  ", "b"] : List String).drop 1
          else ["h", "a", "", "  ", "b"])
    ∧ (∀ l ∈ read_lines_from_file "t.txt" ["h", "a", "", "  ", "b"] true,
        l.isEmpty = false ∧ pyIsSpace l = false)
    ∧ (∀ l : String, l.isEmpty = false → pyIsSpace l = false →
        (read_lines_from_file "t.txt" ["h", "a", "", "  ", "b"] true).count l
          = (if true then (["h", "a", "", "  ", "b"] : List String).drop 1
              else ["h", "a", "", "  ", "b"]).count l)) :=
  ⟨by decide, blank_line_filtering "t.txt" ["h", "a", "", "  ", "b"] true (by decide)⟩

/-- Counterexample to claim C8 as stated: the index -1 lies outside
[0, length()) on a two-example corpus, yet `__getitem__` does not fail —
Python's negative indexing returns the last example. -/
theorem getitem_negative_index_returns :
    TokenDataset.getItem { examples := [[1], [2]], str_suffix := "s" } (-1) = .ok [2]
    ∧ ¬((0 : Int) ≤ -1) := by
  constructor
  · rfl
  · decide

/-- Claim C8 as amended: `get(index)` fails with an out-of-range error
exactly when index < -length() or index ≥ length(); an index in
[0, length()) returns the example at that index as 64-bit integers equal
element-for-element to the stored ids (given ids fit in int64, as
`torch.tensor(•, dtype=torch.long)` requires); an index in [-length(), -1]
returns the example at length()+index per Python list semantics. -/
theorem getItem_index_semantics (ds : TokenDataset) (i : Int)
    (hvals : ∀ row ∈ ds.examples, ∀ v ∈ row, v < 2 ^ 63) :
    ((i < -(ds.length : Int) ∨ (ds.length : Int) ≤ i) →
      ds.getItem i = .error .indexError)
    ∧ (∀ _h0 : 0 ≤ i, ∀ hlt : i.toNat < ds.examples.length,
        ds.getItem i = .ok ((ds.examples.get ⟨i.toNat, hlt⟩).map (fun (n : Nat) => (n : Int))))
    ∧ (∀ _hneg : i < 0, ∀ hge : -(ds.length : Int) ≤ i,
        ds.getItem i = .ok ((ds.examples.get
          ⟨(i + (ds.examples.length : Int)).toNat, by
            unfold TokenDataset.length at hge
            omega⟩).map (fun (n : Nat) => (n : Int)))) := by
  have hall : ∀ row ∈ ds.examples, row.all (fun n => n < 2 ^ 63) = true := by
    intro row hrow
    rw [List.all_eq_true]
    intro v hv
    exact decide_eq_true (hvals row hrow v hv)
  unfold TokenDataset.length
  refine ⟨?_, ?_, ?_⟩
  · intro hout
    unfold TokenDataset.getItem pyIndex
    rcases hout with hlow | hhigh
    · have hi0 : i < 0 := by omega
      rw [if_pos hi0,
        if_neg (show ¬(0 : Int) ≤ i + (ds.examples.length : Int) by omega)]
    · have hi0 : ¬(i < 0) := by omega
      rw [if_neg hi0, if_pos (show (0 : Int) ≤ i by omega),
        List.get?_eq_none.mpr (show ds.examples.length ≤ i.toNat by omega)]
  · intro h0 hlt
    unfold TokenDataset.getItem pyIndex
    rw [if_neg (show ¬ i < 0 by omega), if_pos h0, List.get?_eq_get hlt]
    dsimp only
    unfold torchTensorLong
    rw [if_pos (hall _ (ds.examples.get_mem _ _))]
  · intro hneg hge
    unfold TokenDataset.getItem pyIndex
    have hj : (0 : Int) ≤ i + (ds.examples.length : Int) := by omega
    rw [if_pos hneg, if_pos hj]
    have hlt2 : (i + (ds.examples.length : Int)).toNat < ds.examples.length := by omega
    rw [List.get?_eq_get hlt2]
    dsimp only
    unfold torchTensorLong
    rw [if_pos (hall _ (ds.examples.get_mem _ _))]

/-- Witness for the amended claim C8: index 0 on a two-example corpus
returns the first example as int64 values. -/
theorem getItem_index_semantics_witness :
    (∀ row ∈ ([[1], [2]] : List (List Nat)), ∀ v ∈ row, v < 2 ^ 63) ∧
    TokenDataset.getItem { examples := [[1], [2]], str_suffix := "s" } 0 = .ok [1] := by
  constructor
  · decide
  · have h := (getItem_index_semantics { examples := [[1], [2]], str_suffix := "s" } 0
      (by decide)).2.1 (by decide) (by decide)
    rw [h]
    rfl

/-- Claim C9: construction fails with a configuration (assertion) error
when neither texts nor file_path is provided; with from_cache false it
fails with a configuration error whenever no tokenizer is provided (with
the texts/file_path assert firing first when both are violated); and with
from_cache true no tokenizer is required — a cache construction succeeds
with tokenizer absent. -/
theorem constructor_preconditions :
    (∀ (fs : String → Option FileData) (cfg : Config),
      cfg.texts = none → cfg.file_path = none →
      TokenDataset.init fs cfg =
        .error (.assertionError "texts or file_path must be specified."))
    ∧ (∀ (fs : String → Option FileData) (cfg : Config),
      cfg.from_cache = false → cfg.tokenizer = none →
      (TokenDataset.init fs cfg =
          .error (.assertionError "texts or file_path must be specified.")
        ∨ TokenDataset.init fs cfg =
          .error (.assertionError "A tokenizer must be specified.")))
    ∧ (∀ (fs : String → Option FileData) (cfg : Config) (p : String)
        (bs : List Nat) (ex : List (List Nat)),
      cfg.tokenizer = none → cfg.from_cache = true → cfg.file_path = some p →
      p.isEmpty = false → fs p = some (.binary bs) → msgpackUnpack bs = some ex →
      cfg.save_cache = false →
      TokenDataset.init fs cfg =
        .ok ({ examples := ex, str_suffix := "via cache." }, none)) := by
  refine ⟨?_, ?_, ?_⟩
  · intro fs cfg hts hfp
    unfold TokenDataset.init
    rw [hts, hfp]
    rfl
  · intro fs cfg hfc htok
    unfold TokenDataset.init
    rw [hfc, htok]
    by_cases hor : (truthyTexts cfg.texts || truthyPath cfg.file_path) = true
    · right
      rw [hor]
      rfl
    · left
      rw [Bool.not_eq_true] at hor
      rw [hor]
      rfl
  · intro fs cfg p bs ex _htok hfc hfp hp hfs hun hsc
    exact init_from_cache_ok fs cfg p bs ex hfc hfp hp hfs hun hsc

/-- Fixtures for the C9 witness: a config with nothing supplied. -/
def cfgC9a : Config :=
  { tokenizer := none, texts := none, line_by_line := false
    file_path := none, from_cache := false, header := true
    save_cache := false, cache_destination := none, block_size := 1024 }

/-- Fixtures for the C9 witness: a tokenizer-less non-cache config with a
file path. -/
def cfgC9b : Config :=
  { tokenizer := none, texts := none, line_by_line := false
    file_path := some "f", from_cache := false, header := true
    save_cache := false, cache_destination := none, block_size := 1024 }

/-- Fixtures for the C9 witness: a tokenizer-less cache config. -/
def cfgC9c : Config :=
  { tokenizer := none, texts := none, line_by_line := false
    file_path := some "c", from_cache := true, header := true
    save_cache := false, cache_destination := none, block_size := 1024 }

/-- A file system for the C9 witness holding the cache file "c" with the
msgpack encoding of one row holding the id 7. -/
def fsC9 : String → Option FileData :=
  fun s => if s = "c" then some (.binary [145, 145, 7]) else none

/-- Witness for claim C9 at three concrete configurations. -/
theorem constructor_preconditions_witness :
    TokenDataset.init fsC9 cfgC9a =
      .error (.assertionError "texts or file_path must be specified.")
    ∧ (TokenDataset.init fsC9 cfgC9b =
          .error (.assertionError "texts or file_path must be specified.")
        ∨ TokenDataset.init fsC9 cfgC9b =
          .error (.assertionError "A tokenizer must be specified."))
    ∧ TokenDataset.init fsC9 cfgC9c =
      .ok ({ examples := [[7]], str_suffix := "via cache." }, none) :=
  ⟨constructor_preconditions.1 fsC9 cfgC9a rfl rfl,
    constructor_preconditions.2.1 fsC9 cfgC9b rfl rfl,
    constructor_preconditions.2.2 fsC9 cfgC9c "c" [145, 145, 7] [[7]]
      rfl rfl rfl rfl rfl (by decide) rfl⟩

/-- Tokenizer for the C10 failing input (used only by `batch_encode_plus`). -/
def tokC10 : Tokenizer :=
  { batch_encode_plus := fun _ _ => [[1]]
    tokenize := fun _ => []
    convert_tokens_to_ids := fun _ => []
    build_inputs_with_special_tokens := fun x => x
    max_len := 0
    max_len_single_sentence := 0 }

/-- The C10 failing input: `save_cache=True` with `cache_destination`
omitted (so it stays at its `__init__` default `None`). -/
def cfgC10 : Config :=
  { tokenizer := some tokC10, texts := some ["a"], line_by_line := false
    file_path := none, from_cache := false, header := true
    save_cache := true, cache_destination := none, block_size := 1024 }

/-- Claim C10, evaluated at the failing input: with `save_cache` requested
and no `cache_destination` given, `__init__` calls `self.save(None)` — the
explicit `None` argument bypasses `save`'s own default
"model_cache.msgpack", so `open(None, "wb")` raises TypeError instead of
writing to the fallback default path the spec (and `save`'s signature)
promise. -/
theorem save_cache_none_destination_type_error :
    cfgC10.save_cache = true ∧ cfgC10.cache_destination = none ∧
    TokenDataset.init (fun _ => none) cfgC10 =
      .error (.typeError "expected str, bytes or os.PathLike object, not NoneType") :=
  ⟨rfl, rfl, rfl⟩

end Aitextgen
